import Mathlib

/-!
Shallow embedding of the RTSP load-test core
(`src/rtsp_load_tester/stream_publisher.py` and
`src/rtsp_load_tester/orchestrator.py`).

Configuration dictionaries are modelled as structures of `Option` fields:
`cfg.get(key, default)` becomes `Option.getD`, and Python truthiness of a
possibly-missing list/dict is modelled explicitly.  Wall-clock time is ℚ
("time units" = seconds); process/thread liveness is tracked with explicit
Boolean (resp. counting) state.  External effects (logging, the actual
`ffmpeg` process, `psutil` samples) are parameters of the functions that
consume them.  Diagnostic text (Python `str`) is modelled as `List Char`,
so the slice `s[:500]` becomes `List.take 500`.
-/

/-- One entry of the legacy `video_sources` array. -/
structure VideoSource where
  name : String
  video_path : String
  loop : Option Bool
  fps : Option Nat
deriving DecidableEq

/-- The new-style `video` section (single source shared by all streams). -/
structure VideoConfig where
  path : String
  loop : Option Bool
  fps : Option Nat
deriving DecidableEq

/-- The `rtsp_server` section. -/
structure RtspServerConfig where
  base_url : String
deriving DecidableEq

/-- The `load_test` section. -/
structure LoadTestSection where
  concurrent_streams : Option Nat
  duration : Option ℚ
  report_interval : Option ℚ
deriving DecidableEq

/-- The `limits` section. -/
structure LimitsConfig where
  max_streams : Option Nat
  max_memory_percent : Option ℚ
  max_cpu_percent : Option ℚ
deriving DecidableEq

/-- The `publisher` section (encoder parameters). -/
structure PublisherSection where
  codec : Option String
  preset : Option String
  bitrate : Option String
  pixel_format : Option String
deriving DecidableEq

/-- The whole configuration dictionary; a `none` field is an absent key. -/
structure Config where
  video_sources : Option (List VideoSource)
  video : Option VideoConfig
  rtsp_server : Option RtspServerConfig
  load_test : Option LoadTestSection
  limits : Option LimitsConfig
  publisher : Option PublisherSection
deriving DecidableEq

/-- Python truthiness of `config.get("video_sources")`: present and
non-empty (an empty list is falsy). -/
def Config.videoSourcesTruthy (c : Config) : Bool :=
  match c.video_sources with
  | some l => !l.isEmpty
  | none => false

/-- Python truthiness of `config.get("video")`. -/
def Config.videoTruthy (c : Config) : Bool :=
  c.video.isSome

/-- Model of `config.get("limits", {}).get("max_streams", 50)`. -/
def Config.maxStreams (c : Config) : Nat :=
  (c.limits.bind LimitsConfig.max_streams).getD 50

/-- Model of `config.get("load_test", {}).get("concurrent_streams", 1)` —
the default used by `_validate_config`. -/
def Config.validateConcurrentStreams (c : Config) : Nat :=
  (c.load_test.bind LoadTestSection.concurrent_streams).getD 1

/-- Model of `config.get("load_test", {}).get("concurrent_streams", 3)` —
the (different) default used by `create_publishers`. -/
def Config.createConcurrentStreams (c : Config) : Nat :=
  (c.load_test.bind LoadTestSection.concurrent_streams).getD 3

/-- Model of `config.get("load_test", {}).get("duration", 0)`. -/
def Config.durationLimit (c : Config) : ℚ :=
  (c.load_test.bind LoadTestSection.duration).getD 0

/-- Model of `config.get("limits", {}).get("max_memory_percent", 80)`. -/
def Config.maxMemoryPercent (c : Config) : ℚ :=
  (c.limits.bind LimitsConfig.max_memory_percent).getD 80

/-- Model of `config.get("limits", {}).get("max_cpu_percent", 90)`. -/
def Config.maxCpuPercent (c : Config) : ℚ :=
  (c.limits.bind LimitsConfig.max_cpu_percent).getD 90

/-- Model of `LoadTestOrchestrator._validate_config`: raises `ValueError` (modelled
as `Except.error`) when neither video format is configured, when the
`rtsp_server` section is missing, or when the concurrent-stream count
exceeds `max_streams`. -/
def validate_config (c : Config) : Except String Unit :=
  if !(c.videoSourcesTruthy || c.videoTruthy) then
    Except.error "No video source configured (use video section)"
  else if !c.rtsp_server.isSome then
    Except.error "RTSP server configuration missing"
  else if c.maxStreams < c.validateConcurrentStreams then
    Except.error "Concurrent streams exceeds max limit"
  else
    Except.ok ()

/-- Model of `RTSPStreamPublisher`: the per-stream supervisor state.  The video
properties read by `_get_video_properties` (dimensions, frame count) come
from probing the file with OpenCV, an external effect, and none of the
modelled logic reads them, so they are omitted.  `threadAlive` models
`thread is not None and thread.is_alive()`; `processAlive` models holding
a live `subprocess.Popen` handle. -/
structure RTSPStreamPublisher where
  stream_name : String
  video_path : String
  rtsp_url : String
  loop : Bool
  fps : Nat
  codec : String
  preset : String
  bitrate : String
  pixel_format : String
  running : Bool
  error_count : Nat
  threadAlive : Bool
  processAlive : Bool
  start_time : Option ℚ
deriving DecidableEq

/-- Model of `RTSPStreamPublisher.is_healthy`: running, supervision thread alive,
and fewer than 10 errors. -/
def RTSPStreamPublisher.is_healthy (p : RTSPStreamPublisher) : Bool :=
  p.running && p.threadAlive && decide (p.error_count < 10)

/-- Model of `RTSPStreamPublisher.start`: a no-op (logs only) when already running;
otherwise sets `running`, records the start time and launches the
supervision thread. -/
def RTSPStreamPublisher.start (p : RTSPStreamPublisher) (now : ℚ) :
    RTSPStreamPublisher :=
  if p.running then p
  else { p with running := true, start_time := some now, threadAlive := true }

/-- Model of `RTSPStreamPublisher.stop`: clears `running`, terminates (or kills)
the ffmpeg process, and joins the supervision thread.  All exceptions in
the body are caught, so the call never raises; modelling it as a total
function captures that. -/
def RTSPStreamPublisher.stop (p : RTSPStreamPublisher) : RTSPStreamPublisher :=
  { p with running := false, processAlive := false, threadAlive := false }

/-- The snapshot returned by `RTSPStreamPublisher.get_stats` (the
`resolution` entry is derived from externally probed video properties and
is omitted together with them). -/
structure Stats where
  stream_name : String
  rtsp_url : String
  running : Bool
  uptime_seconds : ℚ
  error_count : Nat
  video_path : String
  fps : Nat
  is_alive : Bool
deriving DecidableEq

/-- Model of `RTSPStreamPublisher.get_stats`: a pure read of the current state at
wall-clock time `now`. -/
def RTSPStreamPublisher.get_stats (p : RTSPStreamPublisher) (now : ℚ) : Stats :=
  { stream_name := p.stream_name
    rtsp_url := p.rtsp_url
    running := p.running
    uptime_seconds := match p.start_time with
      | some t => now - t
      | none => 0
    error_count := p.error_count
    video_path := p.video_path
    fps := p.fps
    is_alive := p.threadAlive }

/-- How one iteration of `_publish_loop`'s inner polling loop ends:
either `running` was set to `false` by a concurrent `stop()` call, or the
ffmpeg process exited on its own (`poll()` returned non-`None`) while
`running` was still `true`. -/
inductive PollOutcome
| stopped
| exited
deriving DecidableEq

/-- The environment of one iteration of `_publish_loop`: how many
0.1-time-unit polls the inner loop performed before its condition turned
false, how it ended, and what the process had written to stderr. -/
structure IterEnv where
  polls : Nat
  outcome : PollOutcome
  stderr_output : List Char

/-- The observable result of one iteration of `_publish_loop`. -/
structure IterResult where
  pub : RTSPStreamPublisher
  launched : Bool
  continues : Bool
  logged : Option (List Char)
  slept : ℚ

/-- One iteration of `RTSPStreamPublisher._publish_loop`.  If `running`
is false the `while` condition fails and the thread exits.  Otherwise the
ffmpeg process is launched and polled every 0.1 time units.  If the inner
loop ended with `running` still true (the process died unexpectedly), the
first 500 characters of its stderr are captured for the log, the error
counter is incremented, the loop sleeps 2 time units and goes back to the
top (`continues = true`).  If instead `running` became false, the effect
of the concurrent `stop()` call is folded in and the thread exits
(`continues = false`). -/
def RTSPStreamPublisher.publish_iteration (p : RTSPStreamPublisher)
    (env : IterEnv) : IterResult :=
  if p.running = false then
    { pub := p, launched := false, continues := false, logged := none, slept := 0 }
  else
    let launched := { p with processAlive := true }
    match env.outcome with
    | PollOutcome.stopped =>
      { pub := launched.stop
        launched := true
        continues := false
        logged := none
        slept := env.polls * (1 / 10 : ℚ) }
    | PollOutcome.exited =>
      let dead := { launched with processAlive := false }
      { pub := { dead with error_count := dead.error_count + 1 }
        launched := true
        continues := true
        logged := some (env.stderr_output.take 500)
        slept := env.polls * (1 / 10 : ℚ) + 2 }

/-- One publisher-facing operation, for reasoning about operation
sequences over a publisher's lifetime. -/
inductive PubOp
| start (now : ℚ)
| stop
| get_stats (now : ℚ)
| is_healthy
| iterate (env : IterEnv)

/-- State effect of one operation (`get_stats` and `is_healthy` are pure
reads). -/
def applyOp (p : RTSPStreamPublisher) : PubOp → RTSPStreamPublisher
| PubOp.start now => p.start now
| PubOp.stop => p.stop
| PubOp.get_stats _ => p
| PubOp.is_healthy => p
| PubOp.iterate env => (p.publish_iteration env).pub

/-- Control point of the supervision thread inside `_publish_loop`
(plus `idle` = not yet started, `dead` = thread returned). -/
inductive Phase
| idle
| loopTop
| monitor
| checkRunning
| cooldown
| dead
deriving DecidableEq

/-- Interleaving-level state of one publisher together with its
supervision thread: the `running` flag, the thread's control point, the
number of live ffmpeg processes it has launched, and the error counter. -/
structure SupState where
  running : Bool
  phase : Phase
  liveProcs : Nat
  error_count : Nat
deriving DecidableEq

/-- A freshly constructed publisher: not running, no thread, no process. -/
def initSup : SupState :=
  { running := false, phase := Phase.idle, liveProcs := 0, error_count := 0 }

/-- Small-step transitions of the publisher/supervision-thread system,
one constructor per control transfer in `stream_publisher.py`:
`start()` (no-op when already running), the outer `while self.running`
check, launching the process (`subprocess.Popen`), the 0.1-unit poll
sleep, spontaneous process exit, the two ways the inner loop ends, the
`if self.running` classification, the 2-unit cooldown, and a concurrent
`stop()` (which clears `running` and terminates the process). -/
inductive SupStep : SupState → SupState → Prop
| start_launch (s : SupState) : s.running = false → s.phase = Phase.idle →
    SupStep s { s with running := true, phase := Phase.loopTop }
| start_noop (s : SupState) : s.running = true → SupStep s s
| loop_enter (s : SupState) : s.phase = Phase.loopTop → s.running = true →
    SupStep s { s with phase := Phase.monitor, liveProcs := s.liveProcs + 1 }
| loop_exit (s : SupState) : s.phase = Phase.loopTop → s.running = false →
    SupStep s { s with phase := Phase.dead }
| poll_sleep (s : SupState) : s.phase = Phase.monitor → s.running = true →
    0 < s.liveProcs → SupStep s s
| proc_exit (s : SupState) : 0 < s.liveProcs →
    SupStep s { s with liveProcs := s.liveProcs - 1 }
| monitor_stop (s : SupState) : s.phase = Phase.monitor → s.running = false →
    SupStep s { s with phase := Phase.checkRunning }
| monitor_exit (s : SupState) : s.phase = Phase.monitor → s.liveProcs = 0 →
    SupStep s { s with phase := Phase.checkRunning }
| unexpected_exit (s : SupState) : s.phase = Phase.checkRunning →
    s.running = true →
    SupStep s { s with phase := Phase.cooldown, error_count := s.error_count + 1 }
| expected_exit (s : SupState) : s.phase = Phase.checkRunning →
    s.running = false → SupStep s { s with phase := Phase.loopTop }
| cooldown_done (s : SupState) : s.phase = Phase.cooldown →
    SupStep s { s with phase := Phase.loopTop }
| stop_call (s : SupState) :
    SupStep s { s with running := false, liveProcs := 0 }

/-- States reachable from a freshly constructed publisher. -/
def SupReachable (s : SupState) : Prop :=
  Relation.ReflTransGen SupStep initSup s

/-- Inductive invariant: at most one live process, none before the thread
exists, and at the loop top / classification / cooldown points a process
can only still be live if a stop is in progress (`running = false`). -/
def SupInv (s : SupState) : Prop :=
  s.liveProcs ≤ 1 ∧
  (s.phase = Phase.idle → s.liveProcs = 0) ∧
  ((s.phase = Phase.loopTop ∨ s.phase = Phase.checkRunning ∨
    s.phase = Phase.cooldown) → s.liveProcs = 0 ∨ s.running = false)

/-- Model of `LoadTestOrchestrator` state: configuration snapshot, owned
publishers (in creation order), global `running` flag and start time. -/
structure LoadTestOrchestrator where
  config : Config
  publishers : List RTSPStreamPublisher
  running : Bool
  start_time : ℚ
deriving DecidableEq

/-- Model of `LoadTestOrchestrator.__init__` (with logging and signal-handler
setup, both external effects, omitted): validates the configuration and
either raises or yields the initial orchestrator state. -/
def mkLoadTestOrchestrator (c : Config) : Except String LoadTestOrchestrator :=
  match validate_config c with
  | Except.error e => Except.error e
  | Except.ok _ =>
    Except.ok { config := c, publishers := [], running := false, start_time := 0 }

/-- Model of `LoadTestOrchestrator.stop`: returns immediately when not running;
otherwise clears `running` and stops every publisher (each stop attempt
is isolated; the final report write is an external effect). -/
def LoadTestOrchestrator.stop (o : LoadTestOrchestrator) : LoadTestOrchestrator :=
  if o.running = false then o
  else
    { o with
      running := false
      publishers := o.publishers.map RTSPStreamPublisher.stop }

/-- Result of `_check_resource_limits`: the new orchestrator state, how
many times `stop()` was invoked, and whether the CPU warning was
logged. -/
structure ResourceCheckResult where
  orch : LoadTestOrchestrator
  stop_calls : Nat
  cpu_warning : Bool
deriving DecidableEq

/-- Model of `LoadTestOrchestrator._check_resource_limits`, with the `psutil`
memory and CPU utilization samples passed in as parameters: a memory
sample over `max_memory_percent` triggers `stop()`; a CPU sample over
`max_cpu_percent` only logs a warning. -/
def LoadTestOrchestrator.check_resource_limits (o : LoadTestOrchestrator)
    (memory_percent cpu_percent : ℚ) : ResourceCheckResult :=
  let max_memory := o.config.maxMemoryPercent
  let max_cpu := o.config.maxCpuPercent
  if max_memory < memory_percent then
    { orch := o.stop, stop_calls := 1, cpu_warning := max_cpu < cpu_percent }
  else
    { orch := o, stop_calls := 0, cpu_warning := max_cpu < cpu_percent }

/-- Model of `LoadTestOrchestrator._check_stream_health`: every publisher failing
`is_healthy()` is logged; among those, any whose error count has reached
10 is stopped.  The in-place mutation of list elements is modelled as a
map over the publisher list. -/
def LoadTestOrchestrator.check_stream_health (o : LoadTestOrchestrator) :
    LoadTestOrchestrator :=
  { o with
    publishers := o.publishers.map fun p =>
      if p.is_healthy = false ∧ 10 ≤ p.error_count then p.stop else p }

/-- The state-changing body of one monitoring tick after the duration
check: resource-limit check with this tick's samples, then the stream
health audit (the periodic status report only logs). -/
def LoadTestOrchestrator.monitorTick (o : LoadTestOrchestrator)
    (memory_percent cpu_percent : ℚ) : LoadTestOrchestrator :=
  ((o.check_resource_limits memory_percent cpu_percent).orch).check_stream_health

/-- Model of `LoadTestOrchestrator._monitoring_loop`, discretised at its 1-time-
unit sleep: `t` is the elapsed time at the current top-of-loop check,
`D` the duration limit read from the configuration before the loop, and
`env t` the resource samples taken during tick `t`.  The function
returns the final state (the trailing `self.stop()` included) and the
elapsed time at which the loop exited; `fuel` bounds the number of
iterations so the function is total. -/
def monitoring_loop (D : ℚ) (env : Nat → ℚ × ℚ) :
    Nat → Nat → LoadTestOrchestrator → LoadTestOrchestrator × Nat
| 0, t, o => (o, t)
| fuel + 1, t, o =>
  if o.running = false then (o.stop, t)
  else if 0 < D ∧ D ≤ (t : ℚ) then (o.stop, t)
  else monitoring_loop D env fuel (t + 1) (o.monitorTick (env t).1 (env t).2)

/-- Model of `RTSPStreamPublisher.__init__` as invoked by `create_publishers`
(the existence check on the video file and the OpenCV property probe are
external effects that succeed whenever the configured video artifact is
in place). -/
def mkPublisherFromConfig (c : Config) (stream_name video_path rtsp_url : String)
    (loop : Bool) (fps : Nat) : RTSPStreamPublisher :=
  let ps := c.publisher.getD
    { codec := none, preset := none, bitrate := none, pixel_format := none }
  { stream_name := stream_name
    video_path := video_path
    rtsp_url := rtsp_url
    loop := loop
    fps := fps
    codec := ps.codec.getD "libx264"
    preset := ps.preset.getD "ultrafast"
    bitrate := ps.bitrate.getD "2M"
    pixel_format := ps.pixel_format.getD "yuv420p"
    running := false
    error_count := 0
    threadAlive := false
    processAlive := false
    start_time := none }

/-- Model of `LoadTestOrchestrator.create_publishers`: `none` models the
`KeyError` raised by `config["rtsp_server"]["base_url"]` when the server
section is absent.  With a truthy `video` section, one publisher per
concurrent stream is appended, named `stream{i}` (1-based) with endpoint
`{base_url}/stream{i}`; otherwise a truthy `video_sources` list yields
one publisher per listed source; otherwise nothing is appended. -/
def LoadTestOrchestrator.create_publishers (o : LoadTestOrchestrator) :
    Option LoadTestOrchestrator :=
  match o.config.rtsp_server with
  | none => none
  | some rs =>
    match o.config.video with
    | some vc =>
      let n := o.config.createConcurrentStreams
      let newPubs := (List.range n).map fun i =>
        let stream_name := "stream" ++ toString (i + 1)
        mkPublisherFromConfig o.config stream_name vc.path
          (rs.base_url ++ "/" ++ stream_name) (vc.loop.getD true) (vc.fps.getD 30)
      some { o with publishers := o.publishers ++ newPubs }
    | none =>
      match o.config.video_sources with
      | some srcs =>
        if srcs.isEmpty then some o
        else
          some { o with
            publishers := o.publishers ++ srcs.map fun src =>
              mkPublisherFromConfig o.config src.name src.video_path
                (rs.base_url ++ "/" ++ src.name) (src.loop.getD true)
                (src.fps.getD 30) }
      | none => some o

/-! Concrete sample states, used to instantiate the theorems below. -/

/-- A publisher in its running steady state. -/
def samplePublisher : RTSPStreamPublisher :=
  { stream_name := "stream1"
    video_path := "videos/test.mp4"
    rtsp_url := "rtsp://localhost:8554/stream1"
    loop := true
    fps := 30
    codec := "libx264"
    preset := "ultrafast"
    bitrate := "2M"
    pixel_format := "yuv420p"
    running := true
    error_count := 0
    threadAlive := true
    processAlive := true
    start_time := some 0 }

/-- A running publisher that has accumulated `k` errors. -/
def erroredPublisher (name : String) (k : Nat) : RTSPStreamPublisher :=
  { samplePublisher with stream_name := name, error_count := k }

/-- A minimal valid configuration: one shared video, default everything. -/
def sampleConfig : Config :=
  { video_sources := none
    video := some { path := "videos/test.mp4", loop := some true, fps := some 30 }
    rtsp_server := some { base_url := "rtsp://localhost:8554" }
    load_test := some
      { concurrent_streams := some 3, duration := some 2, report_interval := none }
    limits := none
    publisher := none }

/-- A running orchestrator over `sampleConfig` with two publishers that
both reached the error threshold. -/
def sampleOrchTwoBad : LoadTestOrchestrator :=
  { config := sampleConfig
    publishers := [erroredPublisher "stream1" 10, erroredPublisher "stream2" 10]
    running := true
    start_time := 0 }

/-- A running orchestrator over `sampleConfig` with one healthy
publisher. -/
def sampleOrch : LoadTestOrchestrator :=
  { config := sampleConfig
    publishers := [samplePublisher]
    running := true
    start_time := 0 }

/-! Claim theorems. -/

/-- C1: one supervision-loop iteration of a publisher whose `running`
flag is true launches the process; if the process exited while `running`
was still true, the error counter goes up by exactly one, at most 500
characters of stderr are captured, the loop sleeps the 0.1-unit polls
plus the 2-unit cooldown and goes back to launch again; if instead
`running` became false, the iteration terminates the loop without
touching the error counter. -/
theorem claim_c1_supervision_iteration (p : RTSPStreamPublisher)
    (hr : p.running = true) (n : Nat) (s : List Char) :
    (p.publish_iteration ⟨n, PollOutcome.exited, s⟩).launched = true ∧
    (p.publish_iteration ⟨n, PollOutcome.exited, s⟩).pub.error_count
      = p.error_count + 1 ∧
    (p.publish_iteration ⟨n, PollOutcome.exited, s⟩).logged = some (s.take 500) ∧
    (s.take 500).length ≤ 500 ∧
    (p.publish_iteration ⟨n, PollOutcome.exited, s⟩).slept
      = n * (1 / 10 : ℚ) + 2 ∧
    (p.publish_iteration ⟨n, PollOutcome.exited, s⟩).continues = true ∧
    (p.publish_iteration ⟨n, PollOutcome.stopped, s⟩).continues = false ∧
    (p.publish_iteration ⟨n, PollOutcome.stopped, s⟩).pub.error_count
      = p.error_count := by
  have hl : (s.take 500).length ≤ 500 := by
    simp [List.length_take]
  simp [RTSPStreamPublisher.publish_iteration, hr, RTSPStreamPublisher.stop, hl]

/-- Witness for C1 at a concrete running publisher. -/
theorem claim_c1_supervision_iteration_witness :
    (samplePublisher.publish_iteration
        ⟨3, PollOutcome.exited, ['b', 'o', 'o', 'm']⟩).pub.error_count
      = samplePublisher.error_count + 1 :=
  (claim_c1_supervision_iteration samplePublisher rfl 3 ['b', 'o', 'o', 'm']).2.1

/-- Any single publisher operation leaves the error counter at least as
large as before. -/
lemma applyOp_error_count_le (p : RTSPStreamPublisher) (op : PubOp) :
    p.error_count ≤ (applyOp p op).error_count := by
  cases op with
  | start now =>
    simp only [applyOp, RTSPStreamPublisher.start]
    split <;> simp
  | stop => simp [applyOp, RTSPStreamPublisher.stop]
  | get_stats now => simp [applyOp]
  | is_healthy => simp [applyOp]
  | iterate env =>
    simp only [applyOp, RTSPStreamPublisher.publish_iteration]
    split
    · simp
    · cases env.outcome <;> simp [RTSPStreamPublisher.stop]

/-- C5: across any sequence of publisher operations (start, stop, stats
reads, health checks, supervision-loop iterations) the error counter is
monotonically non-decreasing. -/
theorem claim_c5_error_count_monotone (p : RTSPStreamPublisher)
    (ops : List PubOp) :
    p.error_count ≤ (ops.foldl applyOp p).error_count := by
  induction ops generalizing p with
  | nil => simp
  | cons op ops ih =>
    calc p.error_count ≤ (applyOp p op).error_count := applyOp_error_count_le p op
    _ ≤ ((op :: ops).foldl applyOp p).error_count := by
        simpa using ih (applyOp p op)

/-- C7: `stop()` is idempotent — a second call yields the same state as
the first (running cleared, no live process, thread joined); totality of
the model reflects that the body catches all exceptions and never
raises. -/
theorem claim_c7_stop_idempotent (p : RTSPStreamPublisher) :
    p.stop.stop = p.stop ∧ p.stop.running = false ∧
    p.stop.processAlive = false :=
  ⟨rfl, rfl, rfl⟩

/-- C3: on a monitoring tick of a running orchestrator, a memory sample
over the ceiling triggers exactly one `stop()` call, after which the
orchestrator and every publisher are stopped; a memory sample within the
ceiling leaves the whole state unchanged, whatever the CPU sample (a
high CPU sample only sets the warning flag). -/
theorem claim_c3_resource_limits (o : LoadTestOrchestrator) (mem cpu : ℚ)
    (hrun : o.running = true) :
    (o.config.maxMemoryPercent < mem →
      (o.check_resource_limits mem cpu).stop_calls = 1 ∧
      (o.check_resource_limits mem cpu).orch.running = false ∧
      ∀ p ∈ (o.check_resource_limits mem cpu).orch.publishers,
        p.running = false) ∧
    (mem ≤ o.config.maxMemoryPercent →
      (o.check_resource_limits mem cpu).stop_calls = 0 ∧
      (o.check_resource_limits mem cpu).orch = o) := by
  constructor
  · intro hmem
    refine ⟨?_, ?_, ?_⟩
    · simp [LoadTestOrchestrator.check_resource_limits, if_pos hmem]
    · simp [LoadTestOrchestrator.check_resource_limits, if_pos hmem,
        LoadTestOrchestrator.stop, hrun]
    · intro p hp
      simp only [LoadTestOrchestrator.check_resource_limits] at hp
      rw [if_pos hmem] at hp
      simp only [LoadTestOrchestrator.stop, hrun] at hp
      simp only [Bool.true_eq_false, if_false, List.mem_map] at hp
      obtain ⟨q, -, hq⟩ := hp
      rw [← hq]
      rfl
  · intro hmem
    have hlt : ¬ o.config.maxMemoryPercent < mem := not_lt.mpr hmem
    simp [LoadTestOrchestrator.check_resource_limits, if_neg hlt]

/-- Witness for C3: an 85% memory sample against the default 80%
ceiling stops the orchestrator and its publisher. -/
theorem claim_c3_resource_limits_witness :
    (sampleOrch.check_resource_limits 85 5).stop_calls = 1 ∧
    (sampleOrch.check_resource_limits 85 5).orch.running = false ∧
    ∀ p ∈ (sampleOrch.check_resource_limits 85 5).orch.publishers,
      p.running = false :=
  (claim_c3_resource_limits sampleOrch 85 5 rfl).1 (by norm_num
    [Config.maxMemoryPercent, sampleOrch, sampleConfig])

/-- C4 as stated is refuted when two publishers reach the threshold in
the same tick: instantiated at `stream1` (error count 10), the audit
also flips sibling `stream2`'s `running` flag from true to false. -/
theorem claim_c4_counterexample :
    10 ≤ (erroredPublisher "stream1" 10).error_count ∧
    (erroredPublisher "stream2" 10).running = true ∧
    sampleOrchTwoBad.publishers.map RTSPStreamPublisher.running
      = [true, true] ∧
    sampleOrchTwoBad.check_stream_health.publishers.map
        RTSPStreamPublisher.running = [false, false] := by
  refine ⟨by decide, rfl, rfl, ?_⟩
  simp [LoadTestOrchestrator.check_stream_health, sampleOrchTwoBad,
    erroredPublisher, samplePublisher, RTSPStreamPublisher.is_healthy,
    RTSPStreamPublisher.stop]

/-- C4 (amended): the health audit stops every publisher whose error
count has reached 10; any publisher whose error count is below 10 is
left completely unchanged, and the orchestrator's own `running` flag is
untouched. -/
theorem claim_c4_health_audit (o : LoadTestOrchestrator) (i : Nat)
    (p : RTSPStreamPublisher) (hp : o.publishers[i]? = some p) :
    o.check_stream_health.running = o.running ∧
    (10 ≤ p.error_count →
      ∃ p2, o.check_stream_health.publishers[i]? = some p2 ∧
        p2.running = false) ∧
    (p.error_count < 10 → o.check_stream_health.publishers[i]? = some p) := by
  refine ⟨rfl, ?_, ?_⟩
  · intro h10
    have hunh : p.is_healthy = false := by
      simp [RTSPStreamPublisher.is_healthy]
      omega
    refine ⟨p.stop, ?_, rfl⟩
    simp [LoadTestOrchestrator.check_stream_health, List.getElem?_map, hp,
      hunh, h10]
  · intro hlt
    have : ¬ (p.is_healthy = false ∧ 10 ≤ p.error_count) := by
      rintro ⟨-, h⟩
      omega
    simp [LoadTestOrchestrator.check_stream_health, List.getElem?_map, hp,
      this]

/-- Witness for the amended C4 at a concrete two-publisher orchestrator. -/
theorem claim_c4_health_audit_witness :
    ∃ p2, sampleOrchTwoBad.check_stream_health.publishers[0]? = some p2 ∧
      p2.running = false :=
  ((claim_c4_health_audit sampleOrchTwoBad 0 (erroredPublisher "stream1" 10)
    rfl).2.1) (by decide)

/-- Model of `SupInv` holds at the initial state. -/
lemma supInv_init : SupInv initSup := by
  refine ⟨?_, ?_, ?_⟩ <;> simp [initSup, SupInv]

/-- Every supervision-system transition preserves `SupInv`. -/
lemma supStep_preserves {s s2 : SupState} (h : SupStep s s2) (hs : SupInv s) :
    SupInv s2 := by
  obtain ⟨h1, h2, h3⟩ := hs
  cases h with
  | start_launch hr hp =>
    exact ⟨h1, by simp, fun _ => Or.inl (h2 hp)⟩
  | start_noop hr => exact ⟨h1, h2, h3⟩
  | loop_enter hp hr =>
    have h0 : s.liveProcs = 0 := by
      rcases h3 (Or.inl hp) with h0 | hcontra
      · exact h0
      · rw [hr] at hcontra
        exact absurd hcontra (by simp)
    refine ⟨?_, by simp, by simp⟩
    dsimp only
    omega
  | loop_exit hp hr =>
    exact ⟨h1, by simp, by simp⟩
  | poll_sleep hp hr hl => exact ⟨h1, h2, h3⟩
  | proc_exit hl =>
    refine ⟨?_, ?_, ?_⟩ <;> dsimp only
    · omega
    · intro hp
      have := h2 hp
      omega
    · intro hp
      rcases h3 hp with h0 | hr
      · omega
      · exact Or.inr hr
  | monitor_stop hp hr =>
    exact ⟨h1, by simp, fun _ => Or.inr hr⟩
  | monitor_exit hp hl =>
    exact ⟨h1, by simp, fun _ => Or.inl hl⟩
  | unexpected_exit hp hr =>
    have h0 : s.liveProcs = 0 := by
      rcases h3 (Or.inr (Or.inl hp)) with h0 | hcontra
      · exact h0
      · rw [hr] at hcontra
        exact absurd hcontra (by simp)
    exact ⟨h1, by simp, fun _ => Or.inl h0⟩
  | expected_exit hp hr =>
    exact ⟨h1, by simp, fun _ => Or.inr hr⟩
  | cooldown_done hp =>
    have := h3 (Or.inr (Or.inr hp))
    exact ⟨h1, by simp, fun _ => this⟩
  | stop_call =>
    refine ⟨?_, fun _ => rfl, fun _ => Or.inl rfl⟩
    dsimp only
    omega

/-- Model of `SupInv` holds at every reachable supervision-system state. -/
lemma supReachable_inv {s : SupState} (h : SupReachable s) : SupInv s := by
  induction h with
  | refl => exact supInv_init
  | tail _ hstep ih => exact supStep_preserves hstep ih

/-- C6: in every reachable interleaving of one publisher's API calls and
supervision-thread steps, at most one external process launched by the
publisher is alive (a new launch happens only after the previous process
exited), and a `start()` call while `running` is already true is a
no-op, spawning no second supervision thread. -/
theorem claim_c6_single_process :
    (∀ s : SupState, SupReachable s → s.liveProcs ≤ 1) ∧
    (∀ (p : RTSPStreamPublisher) (now : ℚ), p.running = true →
      p.start now = p) := by
  constructor
  · intro s hs
    exact (supReachable_inv hs).1
  · intro p now hr
    simp [RTSPStreamPublisher.start, hr]

/-- Witness for C6: the invariant at a concretely reachable state (after
`start()` and the first process launch), and `start()` as a no-op on a
concrete running publisher. -/
theorem claim_c6_single_process_witness :
    ({ running := true, phase := Phase.monitor, liveProcs := 1,
       error_count := 0 } : SupState).liveProcs ≤ 1 ∧
    samplePublisher.start 1 = samplePublisher := by
  constructor
  · exact claim_c6_single_process.1 _
      (Relation.ReflTransGen.tail
        (Relation.ReflTransGen.tail Relation.ReflTransGen.refl
          (SupStep.start_launch initSup rfl rfl))
        (SupStep.loop_enter _ rfl rfl))
  · exact claim_c6_single_process.2 samplePublisher 1 rfl

/-- C8: orchestrator construction fails (raises) exactly when the
configuration has no truthy video source (neither format), or lacks the
`rtsp_server` section, or its concurrent-stream count (default 1)
exceeds the `max_streams` limit (default 50); otherwise it yields the
initial orchestrator state. -/
theorem claim_c8_construction_validation (c : Config) :
    (∃ o, mkLoadTestOrchestrator c = Except.ok o) ↔
      ((c.videoSourcesTruthy || c.videoTruthy) = true ∧
       c.rtsp_server.isSome = true ∧
       c.validateConcurrentStreams ≤ c.maxStreams) := by
  unfold mkLoadTestOrchestrator validate_config
  by_cases h1 : (c.videoSourcesTruthy || c.videoTruthy) = true
  · by_cases h2 : c.rtsp_server.isSome = true
    · by_cases h3 : c.maxStreams < c.validateConcurrentStreams
      all_goals simp [h1, h2, h3]
      all_goals omega
    · simp [h1, h2]
  · simp [h1]

/-- C9: with the single-video format and a concurrent-stream count of 3,
`create_publishers()` on a fresh orchestrator yields exactly the three
publishers `stream1`, `stream2`, `stream3`, in order, with endpoints
`{base_url}/stream{i}`. -/
theorem claim_c9_three_publishers (o : LoadTestOrchestrator)
    (vc : VideoConfig) (rs : RtspServerConfig)
    (hpubs : o.publishers = [])
    (hv : o.config.video = some vc)
    (hrs : o.config.rtsp_server = some rs)
    (hcs : o.config.createConcurrentStreams = 3) :
    ∃ o2, o.create_publishers = some o2 ∧
      o2.publishers.length = 3 ∧
      o2.publishers.map RTSPStreamPublisher.stream_name
        = ["stream1", "stream2", "stream3"] ∧
      o2.publishers.map RTSPStreamPublisher.rtsp_url
        = [rs.base_url ++ "/" ++ "stream1", rs.base_url ++ "/" ++ "stream2",
           rs.base_url ++ "/" ++ "stream3"] := by
  unfold LoadTestOrchestrator.create_publishers
  rw [hrs, hv, hcs, hpubs]
  exact ⟨_, rfl, rfl, rfl, rfl⟩

/-- Witness for C9 on a concrete configuration with
`concurrent_streams = 3`. -/
theorem claim_c9_three_publishers_witness :
    ∃ o2, (LoadTestOrchestrator.create_publishers
        { config := sampleConfig, publishers := [], running := false,
          start_time := 0 }) = some o2 ∧
      o2.publishers.length = 3 ∧
      o2.publishers.map RTSPStreamPublisher.stream_name
        = ["stream1", "stream2", "stream3"] ∧
      o2.publishers.map RTSPStreamPublisher.rtsp_url
        = ["rtsp://localhost:8554" ++ "/" ++ "stream1",
           "rtsp://localhost:8554" ++ "/" ++ "stream2",
           "rtsp://localhost:8554" ++ "/" ++ "stream3"] :=
  claim_c9_three_publishers _ _ _ rfl rfl rfl rfl

/-- C10: with a `video` section but no `load_test` section,
`_validate_config` checks a defaulted concurrent-stream count of 1 while
`create_publishers` defaults to 3; in particular, with `max_streams = 2`
construction succeeds and yet three publishers are created. -/
theorem claim_c10_inconsistent_defaults (c : Config) (vc : VideoConfig)
    (rs : RtspServerConfig) (L : LimitsConfig)
    (hv : c.video = some vc)
    (hlt : c.load_test = none)
    (hrs : c.rtsp_server = some rs)
    (hl : c.limits = some L)
    (hms : L.max_streams = some 2) :
    c.validateConcurrentStreams = 1 ∧
    c.createConcurrentStreams = 3 ∧
    (∃ o, mkLoadTestOrchestrator c = Except.ok o ∧
      ∃ o2, o.create_publishers = some o2 ∧ o2.publishers.length = 3) := by
  have hvt : c.videoTruthy = true := by simp [Config.videoTruthy, hv]
  have hvc : c.validateConcurrentStreams = 1 := by
    simp [Config.validateConcurrentStreams, hlt]
  have hcc : c.createConcurrentStreams = 3 := by
    simp [Config.createConcurrentStreams, hlt]
  have hmax : c.maxStreams = 2 := by
    simp [Config.maxStreams, hl, hms]
  refine ⟨hvc, hcc, ?_⟩
  have hok : mkLoadTestOrchestrator c =
      Except.ok { config := c, publishers := [], running := false,
                  start_time := 0 } := by
    unfold mkLoadTestOrchestrator validate_config
    rw [hvc, hmax]
    simp [hvt, hrs]
  refine ⟨_, hok, ?_⟩
  unfold LoadTestOrchestrator.create_publishers
  rw [hrs, hv, hcc]
  exact ⟨_, rfl, rfl⟩

/-- Witness for C10: concrete configuration with a `video` section, no
`load_test` section and `max_streams = 2`. -/
theorem claim_c10_inconsistent_defaults_witness :
    ({ video_sources := none
       video := some { path := "videos/test.mp4", loop := none, fps := none }
       rtsp_server := some { base_url := "rtsp://localhost:8554" }
       load_test := none
       limits := some { max_streams := some 2, max_memory_percent := none,
                        max_cpu_percent := none }
       publisher := none } : Config).validateConcurrentStreams = 1 ∧
    ({ video_sources := none
       video := some { path := "videos/test.mp4", loop := none, fps := none }
       rtsp_server := some { base_url := "rtsp://localhost:8554" }
       load_test := none
       limits := some { max_streams := some 2, max_memory_percent := none,
                        max_cpu_percent := none }
       publisher := none } : Config).createConcurrentStreams = 3 ∧
    (∃ o, mkLoadTestOrchestrator
        { video_sources := none
          video := some { path := "videos/test.mp4", loop := none, fps := none }
          rtsp_server := some { base_url := "rtsp://localhost:8554" }
          load_test := none
          limits := some { max_streams := some 2, max_memory_percent := none,
                           max_cpu_percent := none }
          publisher := none } = Except.ok o ∧
      ∃ o2, o.create_publishers = some o2 ∧ o2.publishers.length = 3) :=
  claim_c10_inconsistent_defaults _ _ _ _ rfl rfl rfl rfl rfl

/-- With enough fuel, the monitoring loop exits no later than the first
whole tick at or past the duration limit, and the orchestrator is
stopped when it does. -/
lemma monitoring_loop_exits (D : ℚ) (env : Nat → ℚ × ℚ) (hD : 0 < D) :
    ∀ (fuel t : Nat) (o : LoadTestOrchestrator), t ≤ ⌈D⌉₊ → ⌈D⌉₊ < t + fuel →
      (monitoring_loop D env fuel t o).1.running = false ∧
      (monitoring_loop D env fuel t o).2 ≤ ⌈D⌉₊ := by
  intro fuel
  induction fuel with
  | zero =>
    intro t o ht hfuel
    omega
  | succ fuel ih =>
    intro t o ht hfuel
    by_cases h1 : o.running = false
    · simp only [monitoring_loop, h1, if_true]
      exact ⟨by simp [LoadTestOrchestrator.stop, h1], ht⟩
    · have h1' : o.running = true := by simpa using h1
      by_cases h2 : 0 < D ∧ D ≤ (t : ℚ)
      · simp only [monitoring_loop, h1']
        rw [if_neg (by simp), if_pos h2]
        exact ⟨by simp [LoadTestOrchestrator.stop, h1'], ht⟩
      · simp only [monitoring_loop, h1']
        rw [if_neg (by simp), if_neg h2]
        have htD : (t : ℚ) < D := by
          rcases not_and_or.mp h2 with hc | hc
          · exact absurd hD hc
          · exact lt_of_not_le hc
        have ht1 : t + 1 ≤ ⌈D⌉₊ := Nat.lt_ceil.mpr htD
        exact ih (t + 1) _ ht1 (by omega)

/-- C2: when a positive duration limit `D` is configured, the monitoring
loop (started at elapsed time 0, whatever the resource samples) ends
with the orchestrator stopped, at an elapsed time at most one tick
(1 time unit) past `D`. -/
theorem claim_c2_duration_limit (o : LoadTestOrchestrator)
    (env : Nat → ℚ × ℚ) (fuel : Nat)
    (hD : 0 < o.config.durationLimit)
    (hfuel : ⌈o.config.durationLimit⌉₊ < fuel) :
    (monitoring_loop o.config.durationLimit env fuel 0 o).1.running = false ∧
    ((monitoring_loop o.config.durationLimit env fuel 0 o).2 : ℚ)
      ≤ o.config.durationLimit + 1 := by
  obtain ⟨hstop, hle⟩ := monitoring_loop_exits o.config.durationLimit env hD
    fuel 0 o (Nat.zero_le _) (by omega)
  refine ⟨hstop, ?_⟩
  calc ((monitoring_loop o.config.durationLimit env fuel 0 o).2 : ℚ)
      ≤ (⌈o.config.durationLimit⌉₊ : ℚ) := by exact_mod_cast hle
    _ ≤ o.config.durationLimit + 1 :=
        le_of_lt (Nat.ceil_lt_add_one (le_of_lt hD))

/-- Witness for C2: duration limit 2, benign samples, fuel 3 — the loop
exits stopped by elapsed time 2 ≤ 3. -/
theorem claim_c2_duration_limit_witness :
    (monitoring_loop sampleOrch.config.durationLimit (fun _ => (0, 0)) 3 0
      sampleOrch).1.running = false ∧
    ((monitoring_loop sampleOrch.config.durationLimit (fun _ => (0, 0)) 3 0
      sampleOrch).2 : ℚ) ≤ sampleOrch.config.durationLimit + 1 :=
  claim_c2_duration_limit sampleOrch (fun _ => (0, 0)) 3
    (by norm_num [Config.durationLimit, sampleOrch, sampleConfig])
    (by norm_num [Config.durationLimit, sampleOrch, sampleConfig])
